import Mathlib

set_option maxRecDepth 4000

/-!
Verification of the portfolio-dashboard core (stock.py, dashboard_app.py)
against its natural-language specification.

The Python code is shallowly embedded: JSON payloads become the inductive
type `JVal`, Python numbers become `ℚ` (exact rationals standing for the
ints/floats the code manipulates), fallible Python code becomes
`Except PyErr`, and Streamlit's `st.session_state` becomes an association
list threaded explicitly.  Each definition mirrors one function of the
source; the HTTP layer (responses of `requests`) is supplied as data.
-/

namespace Portfolio

/-- A Python value as produced by `json` decoding (plus `None`). -/
inductive JVal where
  | jnull
  | jbool (b : Bool)
  | jnum (q : ℚ)
  | jstr (s : String)
  | jarr (xs : List JVal)
  | jobj (fields : List (String × JVal))

/-- A JSON object: the field list of a Python dict (string keys). -/
abbrev JObj := List (String × JVal)

/-- Python errors relevant to the embedded code. -/
inductive PyErr where
  | typeError
  | valueError
  | keyError
  | indexError
  | attributeError
  | jsonError
  | httpError
  | authError
  | connectionError
  | overflowError
  deriving DecidableEq, Repr

/-- Python truthiness of a `JVal` (`bool(v)`). -/
def truthy : JVal → Bool
  | .jnull => false
  | .jbool b => b
  | .jnum q => q ≠ 0
  | .jstr s => s ≠ ""
  | .jarr xs => ¬ xs.isEmpty
  | .jobj fs => ¬ fs.isEmpty

/-- Python `a or b`: `a` when truthy, otherwise `b`. -/
def pyOr (a b : JVal) : JVal := if truthy a then a else b

/-- `d.get(k)`: first binding of `k`, `None` when absent. -/
def objGet (d : JObj) (k : String) : JVal :=
  match d.find? (fun p => p.1 = k) with
  | some p => p.2
  | none => .jnull

/-- `d.get(k, default)`. -/
def objGetD (d : JObj) (k : String) (default : JVal) : JVal :=
  match d.find? (fun p => p.1 = k) with
  | some p => p.2
  | none => default

/-- `k in d`, then `d[k]`: `none` models the key being absent. -/
def objGet? (d : JObj) (k : String) : Option JVal :=
  (d.find? (fun p => p.1 = k)).map (fun p => p.2)

/-- `d[k]`: raises `KeyError` when the key is absent. -/
def objGetE (d : JObj) (k : String) : Except PyErr JVal :=
  match objGet? d k with
  | some v => .ok v
  | none => .error .keyError

/-- `.get(...)` on a value that must be a dict (`AttributeError` otherwise). -/
def asObjE : JVal → Except PyErr JObj
  | .jobj fs => .ok fs
  | _ => .error .attributeError

/-- Python iteration `for x in v`: lists yield elements, strings yield
one-character strings, dicts yield their keys; other values raise. -/
def pyIterE : JVal → Except PyErr (List JVal)
  | .jarr xs => .ok xs
  | .jstr s => .ok (s.data.map (fun c => .jstr (String.singleton c)))
  | .jobj fs => .ok (fs.map (fun p => .jstr p.1))
  | _ => .error .typeError

/-- Python subscript `v[0]`. -/
def pySub0 : JVal → Except PyErr JVal
  | .jarr (x :: _) => .ok x
  | .jarr [] => .error .indexError
  | .jstr s =>
      match s.data with
      | c :: _ => .ok (.jstr (String.singleton c))
      | [] => .error .indexError
  | .jobj _ => .error .keyError
  | _ => .error .typeError

/-! ### Python numeric-string parsing

Model of the builtin `float(s)` / `int(s)` on strings: optional
surrounding whitespace, optional sign, decimal digits with optional
fractional part and optional exponent (`float`), or plain decimal digits
(`int`).  `inf`/`nan` and digit-group underscores are outside the model's
scope (no claim touches them). -/

def isWs (c : Char) : Bool := c = ' ' ∨ c = '\t' ∨ c = '\n' ∨ c = '\r'

def isDig (c : Char) : Bool := '0' ≤ c ∧ c ≤ '9'

def natOfDigits (l : List Char) : ℕ :=
  l.foldl (fun a c => a * 10 + (c.toNat - 48)) 0

def stripWs (l : List Char) : List Char :=
  ((l.dropWhile isWs).reverse.dropWhile isWs).reverse

def splitSign : List Char → (ℤ × List Char)
  | '+' :: r => (1, r)
  | '-' :: r => (-1, r)
  | l => (1, l)

/-- Exponent suffix of a float literal: empty means exponent 0. -/
def parseExpPart : List Char → Option ℤ
  | [] => some 0
  | c :: r =>
      if c = 'e' ∨ c = 'E' then
        let (sg, r2) := splitSign r
        let ds := r2.takeWhile isDig
        let rest := r2.dropWhile isDig
        if ds ≠ [] ∧ rest = [] then some (sg * (natOfDigits ds : ℤ)) else none
      else none

/-- Mantissa of a float literal: digits with optional `.` fraction.
Returns the integer digits, the fraction digits and the rest. -/
def parseMantissa (l : List Char) : Option ((List Char × List Char) × List Char) :=
  let intDs := l.takeWhile isDig
  let r1 := l.dropWhile isDig
  match r1 with
  | '.' :: r2 =>
      let fracDs := r2.takeWhile isDig
      let r3 := r2.dropWhile isDig
      if intDs = [] ∧ fracDs = [] then none
      else some ((intDs, fracDs), r3)
  | _ => if intDs = [] then none else some ((intDs, []), r1)

/-- The rational value `sg * intDs.fracDs * 10^e` of a decimal literal,
assembled with integer arithmetic and a single `mkRat`. -/
def floatVal (sg : ℤ) (intDs fracDs : List Char) (e : ℤ) : ℚ :=
  let num : ℤ := sg * (natOfDigits (intDs ++ fracDs) : ℤ)
  let sh : ℤ := e - fracDs.length
  if 0 ≤ sh then ((num * ((10 ^ sh.toNat : ℕ) : ℤ) : ℤ) : ℚ)
  else mkRat num (10 ^ (-sh).toNat)

/-- `float(s)` on a string: `some` value or `none` for `ValueError`. -/
def parsePyFloat? (s : String) : Option ℚ :=
  let l := stripWs s.data
  let (sg, l1) := splitSign l
  match parseMantissa l1 with
  | none => none
  | some ((intDs, fracDs), rest) =>
      match parseExpPart rest with
      | none => none
      | some e => some (floatVal sg intDs fracDs e)

/-- `int(s)` on a string: decimal digits only. -/
def parsePyIntStr? (s : String) : Option ℤ :=
  let l := stripWs s.data
  let (sg, l1) := splitSign l
  if l1 ≠ [] ∧ l1.all isDig then some (sg * (natOfDigits l1 : ℤ)) else none

/-- A Python `float`: a finite value — kept as its exact rational; IEEE
rounding of in-range values is not modelled, no claim depends on it — or
one of the two infinities produced by overflowing string conversion
(`nan` stays outside the model: `parsePyFloat?` accepts no `nan`/`inf`
spellings). -/
inductive PyFloat where
  | finite (q : ℚ)
  | inf
  | neginf

/-- The exact overflow threshold of correctly-rounded decimal-to-double
conversion: a real of magnitude at least `2^1024 - 2^970` (the midpoint
above `DBL_MAX`) rounds to infinity.  `float(s)` on a string saturates to
`±inf` beyond it; `float(n)` on an int raises `OverflowError` there. -/
def FLOAT_OVF_POS : ℚ := (((2 ^ 1024 - 2 ^ 970 : ℕ) : ℤ) : ℚ)

def FLOAT_OVF_NEG : ℚ := ((-((2 ^ 1024 - 2 ^ 970 : ℕ) : ℤ)) : ℚ)

def floatOverflows (q : ℚ) : Bool := FLOAT_OVF_POS ≤ q ∨ q ≤ FLOAT_OVF_NEG

/-- Correctly-rounded string-to-double conversion at the overflow
boundary: saturate to the signed infinity, else keep the exact value. -/
def mkPyFloat (q : ℚ) : PyFloat :=
  if FLOAT_OVF_POS ≤ q then .inf
  else if q ≤ FLOAT_OVF_NEG then .neginf
  else .finite q

/-- `float(v)` on a Python value.  A `jnum` of magnitude beyond the
double range can only be a Python int (a JSON float literal that large
already saturated to `inf` when decoded, which `ℚ` cannot represent), and
`float` of such an int raises `OverflowError`; a *string* beyond the
range saturates to infinity instead of raising. -/
def pyFloatE : JVal → Except PyErr PyFloat
  | .jnull => .error .typeError
  | .jbool b => .ok (.finite (if b then 1 else 0))
  | .jnum q => if floatOverflows q then .error .overflowError else .ok (.finite q)
  | .jstr s =>
      match parsePyFloat? s with
      | some q => .ok (mkPyFloat q)
      | none => .error .valueError
  | .jarr _ => .error .typeError
  | .jobj _ => .error .typeError

/-- `int(q)` on a *finite* float value: truncation toward zero (the
infinite case lives in `pyIntOfFloat`). -/
def pyTrunc (q : ℚ) : ℤ := if 0 ≤ q then ⌊q⌋ else ⌈q⌉

/-- `int(f)` on a float: `int(±inf)` raises `OverflowError`. -/
def pyIntOfFloat : PyFloat → Except PyErr ℤ
  | .finite q => .ok (pyTrunc q)
  | .inf => .error .overflowError
  | .neginf => .error .overflowError

/-- `int(v)` on a Python value (no fractional strings accepted; `int` of
a Python int is exact at any magnitude, and a `jnum` holding a float is
finite by representation, so no overflow arises here). -/
def pyIntE : JVal → Except PyErr ℤ
  | .jnull => .error .typeError
  | .jbool b => .ok (if b then 1 else 0)
  | .jnum q => .ok (pyTrunc q)
  | .jstr s =>
      match parsePyIntStr? s with
      | some z => .ok z
      | none => .error .valueError
  | .jarr _ => .error .typeError
  | .jobj _ => .error .typeError

/-! ### `safe_float` / `safe_int` (stock.py lines 33–39)

```python
def safe_float(val, default=0.0) -> float:
    try: return float(val or default)
    except (ValueError, TypeError): return default

def safe_int(val, default=0) -> int:
    try: return int(float(val or default))
    except (ValueError, TypeError): return default
```

The `try`/`except` is modelled by `..._checked`, which maps `ValueError`
and `TypeError` to the default and re-raises anything else — in
particular the `OverflowError` of `float(huge int)` and `int(inf)`
escapes.  The plain `safe_float`/`safe_int` are the exact values of the
non-raising, finite regime; the normalizers consume them (their claims
never exercise the overflow corner, whose raising behaviour is settled
against the `_checked` forms by C5). -/

def safe_float_checked (val : JVal) (default : ℚ) : Except PyErr PyFloat :=
  match pyFloatE (pyOr val (.jnum default)) with
  | .ok f => .ok f
  | .error .valueError => .ok (.finite default)
  | .error .typeError => .ok (.finite default)
  | .error e => .error e

def safe_float (val : JVal) (default : ℚ := 0) : ℚ :=
  match safe_float_checked val default with
  | .ok (.finite q) => q
  | _ => default

def safe_int_checked (val : JVal) (default : ℤ) : Except PyErr ℤ :=
  match pyFloatE (pyOr val (.jnum (default : ℚ))) with
  | .ok f =>
      match pyIntOfFloat f with
      | .ok z => .ok z
      | .error .valueError => .ok default
      | .error .typeError => .ok default
      | .error e => .error e
  | .error .valueError => .ok default
  | .error .typeError => .ok default
  | .error e => .error e

def safe_int (val : JVal) (default : ℤ := 0) : ℤ :=
  match safe_int_checked val default with
  | .ok z => z
  | .error _ => default

/-- `pyFloatE` fails only with `ValueError`, `TypeError` or
`OverflowError`. -/
theorem pyFloatE_error_cases (v : JVal) (e : PyErr) (h : pyFloatE v = .error e) :
    e = PyErr.valueError ∨ e = PyErr.typeError ∨ e = PyErr.overflowError := by
  cases v with
  | jnull => exact Or.inr (Or.inl (by simpa [pyFloatE] using h.symm))
  | jbool b => simp [pyFloatE] at h
  | jnum q =>
      simp only [pyFloatE] at h
      by_cases hq : floatOverflows q
      · rw [if_pos hq] at h
        exact Or.inr (Or.inr (Except.error.inj h).symm)
      · rw [if_neg hq] at h
        exact Except.noConfusion h
  | jstr s =>
      simp only [pyFloatE] at h
      cases hp : parsePyFloat? s with
      | some q => rw [hp] at h; exact Except.noConfusion h
      | none => rw [hp] at h; exact Or.inl (Except.error.inj h).symm
  | jarr xs => exact Or.inr (Or.inl (by simpa [pyFloatE] using h.symm))
  | jobj fs => exact Or.inr (Or.inl (by simpa [pyFloatE] using h.symm))

theorem pyIntOfFloat_error_cases (f : PyFloat) (e : PyErr)
    (h : pyIntOfFloat f = .error e) : e = PyErr.overflowError := by
  cases f with
  | finite q => exact Except.noConfusion h
  | inf => exact (Except.error.inj h).symm
  | neginf => exact (Except.error.inj h).symm

/-- The only exception `safe_float` can let escape is `OverflowError`. -/
theorem safe_float_checked_error (v : JVal) (d : ℚ) (e : PyErr)
    (h : safe_float_checked v d = .error e) : e = PyErr.overflowError := by
  unfold safe_float_checked at h
  cases hf : pyFloatE (pyOr v (.jnum d)) with
  | ok f => rw [hf] at h; exact Except.noConfusion h
  | error e' =>
      rw [hf] at h
      rcases pyFloatE_error_cases _ _ hf with h1 | h1 | h1 <;> subst h1
      · exact Except.noConfusion h
      · exact Except.noConfusion h
      · exact (Except.error.inj h).symm

/-- The only exception `safe_int` can let escape is `OverflowError`. -/
theorem safe_int_checked_error (v : JVal) (d : ℤ) (e : PyErr)
    (h : safe_int_checked v d = .error e) : e = PyErr.overflowError := by
  unfold safe_int_checked at h
  cases hf : pyFloatE (pyOr v (.jnum (d : ℚ))) with
  | ok f =>
      rw [hf] at h
      dsimp only at h
      cases hi : pyIntOfFloat f with
      | ok z => rw [hi] at h; exact Except.noConfusion h
      | error e' =>
          rw [hi] at h
          have h2 := pyIntOfFloat_error_cases _ _ hi
          subst h2
          exact (Except.error.inj h).symm
  | error e' =>
      rw [hf] at h
      rcases pyFloatE_error_cases _ _ hf with h1 | h1 | h1 <;> subst h1
      · exact Except.noConfusion h
      · exact Except.noConfusion h
      · exact (Except.error.inj h).symm

/-- C5 (amended): for a missing key / `None`, a JSON null, the empty
string and any non-numeric string, `safe_float` returns the default `0.0`
and `safe_int` the default `0`, without raising; the
`except (ValueError, TypeError)` absorbs every `ValueError` and
`TypeError`, so the only exception either function can let escape is
`OverflowError` — and it does escape: `safe_int` raises it when the
converted float is infinite (`int(float("1e310")) = int(inf)`), while
`safe_float("1e310")` saturates to `inf` without raising, and both raise
on an integer value too large for `float` conversion. -/
theorem safe_conversions_defaults_and_overflow :
    safe_float .jnull = 0 ∧ safe_int .jnull = 0 ∧
    safe_float (.jstr "") = 0 ∧ safe_int (.jstr "") = 0 ∧
    safe_float_checked .jnull 0 = .ok (.finite 0) ∧
    safe_int_checked .jnull 0 = .ok 0 ∧
    (∀ s : String, parsePyFloat? s = none →
      safe_float (.jstr s) = 0 ∧ safe_int (.jstr s) = 0 ∧
      safe_float_checked (.jstr s) 0 = .ok (.finite 0) ∧
      safe_int_checked (.jstr s) 0 = .ok 0) ∧
    (∀ (v : JVal) (d : ℚ) (e : PyErr),
      safe_float_checked v d = .error e → e = PyErr.overflowError) ∧
    (∀ (v : JVal) (d : ℤ) (e : PyErr),
      safe_int_checked v d = .error e → e = PyErr.overflowError) ∧
    safe_int_checked (.jstr "1e310") 0 = .error .overflowError ∧
    safe_float_checked (.jstr "1e310") 0 = .ok .inf ∧
    safe_float_checked (.jnum ((10 ^ 310 : ℕ) : ℚ)) 0 = .error .overflowError := by
  refine ⟨rfl, rfl, rfl, rfl, rfl, rfl, ?_, safe_float_checked_error,
    safe_int_checked_error, rfl, rfl, rfl⟩
  intro s hs
  by_cases ht : truthy (.jstr s)
  · have hfe : ∀ d : ℚ, pyFloatE (pyOr (.jstr s) (.jnum d)) = .error .valueError := by
      intro d
      unfold pyOr
      rw [if_pos ht]
      simp only [pyFloatE]
      rw [hs]
    refine ⟨?_, ?_, ?_, ?_⟩
    · unfold safe_float safe_float_checked
      rw [hfe]
    · unfold safe_int safe_int_checked
      rw [hfe]
    · unfold safe_float_checked
      rw [hfe]
    · unfold safe_int_checked
      rw [hfe]
  · have hs0 : s = "" := by
      by_contra hne
      apply ht
      simpa [truthy] using hne
    subst hs0
    exact ⟨rfl, rfl, rfl, rfl⟩

/-- C5 counterexample: `safe_int("1e310")` executes
`int(float("1e310")) = int(inf)` and raises `OverflowError`, which
`except (ValueError, TypeError)` does not catch; `safe_float` likewise
raises on an integer too large for `float`.  So the conversions are not
exception-free on every input. -/
theorem safe_int_overflow_raises :
    safe_int_checked (.jstr "1e310") 0 = .error .overflowError ∧
    safe_float_checked (.jnum ((10 ^ 310 : ℕ) : ℚ)) 0 = .error .overflowError :=
  ⟨rfl, rfl⟩

/-- Witness for C5: the quantified clauses evaluated at the concrete
non-numeric string `"abc"`. -/
theorem safe_conversions_defaults_and_overflow_witness :
    safe_float (.jstr "abc") = 0 ∧ safe_int (.jstr "abc") = 0 ∧
    safe_float_checked (.jstr "abc") 0 = .ok (.finite 0) ∧
    safe_int_checked (.jstr "abc") 0 = .ok 0 :=
  safe_conversions_defaults_and_overflow.2.2.2.2.2.2.1 "abc" (by decide)

/-! ### Token cache (stock.py lines 12–13, 43–70, 85–96, 283–311)

`st.session_state` is modelled as a map from keys to stored token dicts
(`TokenInfo` is the `{"token": ..., "expires_at": ...}` dict written by
`_save_token`).  Timestamps are epoch seconds as `ℚ`.  The broker-specific
`_issue_token` bodies are modelled as functions of the decoded JSON
response body `d` and the current time `nowT`; the HTTP exchange itself
(`requests.post` + `raise_for_status` + `res.json()`) is external and its
failure modes are handled at the orchestrator layer. -/

def TOKEN_BUFFER_SEC : ℚ := 300

structure TokenInfo where
  token : JVal
  expires_at : ℚ

def SessionState := String → Option TokenInfo

def ssEmpty : SessionState := fun _ => none

def ssGet (ss : SessionState) (k : String) : Option TokenInfo := ss k

def ssSet (ss : SessionState) (k : String) (v : TokenInfo) : SessionState :=
  fun k' => if k' = k then some v else ss k'

/-- `BaseAPI.__init__`: `self.token_key = f"token_{account_prefix}_{cls}"`. -/
def token_key (acctPfx : String) (clsName : String) : String :=
  "token_" ++ acctPfx ++ "_" ++ clsName

/-- `KISApi.__init__` passes `f"KIS_{account_type}"` as the account prefix. -/
def kisTokenKey (account_type : String) : String :=
  token_key ("KIS_" ++ account_type) "KISApi"

/-- `KiwoomAPI.__init__` passes the fixed prefix `"KIWOOM_C"`. -/
def kiwoomTokenKey : String := token_key "KIWOOM_C" "KiwoomAPI"

/-- `BaseAPI._extract_token`: `data.get("access_token") or data.get("token")`. -/
def KIS_extract_token (d : JObj) : JVal :=
  pyOr (objGet d "access_token") (objGet d "token")

/-- `KiwoomAPI._extract_token`: `data.get("token") or data.get("access_token")`. -/
def Kiwoom_extract_token (d : JObj) : JVal :=
  pyOr (objGet d "token") (objGet d "access_token")

/-- `BaseAPI._save_token`: store `{"token": t, "expires_at": e}` under the
client's own key when the extracted token is truthy; also returns the
token written to `self._token` (`none` when nothing was saved). -/
def save_token (extract : JObj → JVal) (key : String) (d : JObj)
    (expires_at : ℚ) (ss : SessionState) : Option JVal × SessionState :=
  let t := extract d
  if truthy t then (some t, ssSet ss key ⟨t, expires_at⟩) else (none, ss)

/-- `BaseAPI.get_token`: reuse the cached token while `expires_at > now`,
otherwise call the subclass's `_issue_token`.  The `ℕ` component counts
issuance calls performed. -/
def get_token (key : String) (nowT : ℚ)
    (issue : SessionState → Except PyErr (JVal × SessionState))
    (ss : SessionState) : Except PyErr (JVal × SessionState × ℕ) :=
  match ssGet ss key with
  | some ti =>
      if nowT < ti.expires_at then .ok (ti.token, ss, 0)
      else (issue ss).map (fun p => (p.1, p.2, 1))
  | none => (issue ss).map (fun p => (p.1, p.2, 1))

/-- `KISApi._issue_token` after a successful POST with JSON body `d`:
`expires_at = now + int(data["expires_in"]) - TOKEN_BUFFER_SEC`, then
`_save_token`; returns `self._token`. -/
def KIS_issue_token (key : String) (nowT : ℚ) (d : JObj) (ss : SessionState) :
    Except PyErr (JVal × SessionState) :=
  match objGetE d "expires_in" with
  | .error e => .error e
  | .ok v =>
      match pyIntE v with
      | .error e => .error e
      | .ok ei =>
          let r := save_token KIS_extract_token key d
            (nowT + (ei : ℚ) - TOKEN_BUFFER_SEC) ss
          .ok (r.1.getD .jnull, r.2)

/-! #### `datetime.strptime(s, "%Y%m%d%H%M%S").replace(tzinfo=KST).timestamp()` -/

def isLeap (y : ℕ) : Bool := y % 4 = 0 ∧ (y % 100 ≠ 0 ∨ y % 400 = 0)

def daysInMonth (y m : ℕ) : ℕ :=
  if m = 2 then (if isLeap y then 29 else 28)
  else if m = 4 ∨ m = 6 ∨ m = 9 ∨ m = 11 then 30 else 31

/-- Days from 1970-01-01 to the civil date `y-m-d` (proleptic Gregorian,
valid for `y ≥ 1`, the range `datetime` accepts). -/
def daysFromCivil (y m d : ℕ) : ℤ :=
  let y' := if m ≤ 2 then y - 1 else y
  let era := y' / 400
  let yoe := y' % 400
  let mp := (m + 9) % 12
  let doy := (153 * mp + 2) / 5 + (d - 1)
  let doe := yoe * 365 + yoe / 4 - yoe / 100 + doy
  (era * 146097 + doe : ℤ) - 719468

/-- Epoch seconds of `y-m-d h:mi:s` interpreted in KST (UTC+9). -/
def kstTimestamp (y mo d h mi s : ℕ) : ℚ :=
  ((daysFromCivil y mo d * 86400 + (h * 3600 + mi * 60 + s : ℕ) - 9 * 3600 : ℤ) : ℚ)

/-- `datetime.strptime` with format `"%Y%m%d%H%M%S"` followed by
`.timestamp()` in KST: fourteen digits with in-range fields, `none` for
the `ValueError` path.  `datetime` accepts only seconds 0–59 (a parsed
second of 60 or 61 makes the constructor raise `ValueError`, so such
strings take the fallback), and years from 1 (`MINYEAR`). -/
def strptime14? (s : String) : Option ℚ :=
  let l := s.data
  if l.length = 14 ∧ l.all isDig then
    let y := natOfDigits (l.take 4)
    let mo := natOfDigits ((l.drop 4).take 2)
    let d := natOfDigits ((l.drop 6).take 2)
    let h := natOfDigits ((l.drop 8).take 2)
    let mi := natOfDigits ((l.drop 10).take 2)
    let sec := natOfDigits ((l.drop 12).take 2)
    if 1 ≤ y ∧ 1 ≤ mo ∧ mo ≤ 12 ∧ 1 ≤ d ∧ d ≤ daysInMonth y mo ∧
        h ≤ 23 ∧ mi ≤ 59 ∧ sec ≤ 59 then
      some (kstTimestamp y mo d h mi sec)
    else none
  else none

/-- Tail of `KiwoomAPI._issue_token`: subtract the buffer, save, return. -/
def Kiwoom_issue_finish (key : String) (d : JObj) (expiresAt : ℚ)
    (ss : SessionState) : Except PyErr (JVal × SessionState) :=
  let r := save_token Kiwoom_extract_token key d expiresAt ss
  .ok (r.1.getD .jnull, r.2)

/-- `KiwoomAPI._issue_token` after a successful POST with JSON body `d`:
default expiry `now + 1800`; when `"expires_dt" in data`, parse it with
`strptime` — a failed parse raises `ValueError`, which the `except
ValueError: pass` swallows (keeping the default), while a non-string value
raises `TypeError`, which is not caught; finally subtract the buffer. -/
def Kiwoom_issue_token (key : String) (nowT : ℚ) (d : JObj) (ss : SessionState) :
    Except PyErr (JVal × SessionState) :=
  match objGet? d "expires_dt" with
  | some (.jstr s) =>
      Kiwoom_issue_finish key d
        (((strptime14? s).getD (nowT + 1800)) - TOKEN_BUFFER_SEC) ss
  | some _ => .error .typeError
  | none => Kiwoom_issue_finish key d ((nowT + 1800) - TOKEN_BUFFER_SEC) ss

/-- C3: with a cached entry not yet expired, `get_token` returns the cached
token, leaves the session state unchanged and performs no issuance call;
with the entry absent or expired, when issuance yields token `t` and stores
it with expiry `e` under the key, `get_token` performs exactly one issuance
call, stores `⟨t, e⟩` under the key and returns `t`. -/
theorem get_token_cache_semantics (key : String) (nowT : ℚ)
    (issue : SessionState → Except PyErr (JVal × SessionState))
    (ss : SessionState) :
    (∀ ti, ssGet ss key = some ti → nowT < ti.expires_at →
      get_token key nowT issue ss = .ok (ti.token, ss, 0)) ∧
    (∀ t e,
      (ssGet ss key = none ∨ ∃ ti, ssGet ss key = some ti ∧ ti.expires_at ≤ nowT) →
      (∀ s₀, issue s₀ = .ok (t, ssSet s₀ key ⟨t, e⟩)) →
      get_token key nowT issue ss = .ok (t, ssSet ss key ⟨t, e⟩, 1)) := by
  constructor
  · intro ti hti hlt
    unfold get_token
    rw [hti]
    dsimp only
    rw [if_pos hlt]
  · intro t e hmiss hissue
    unfold get_token
    rcases hmiss with hnone | ⟨ti, hti, hle⟩
    · rw [hnone]
      dsimp only
      rw [hissue ss]
      rfl
    · rw [hti]
      dsimp only
      rw [if_neg (not_lt.mpr hle), hissue ss]
      rfl

/-- Witness for C3: a cache hit at time 50 on an entry expiring at 100
returns the cached token with zero issuance calls, and a miss at time 150
issues once and stores the new token. -/
theorem get_token_cache_semantics_witness :
    get_token "k" 50 (fun s₀ => .ok (.jstr "NEW", ssSet s₀ "k" ⟨.jstr "NEW", 900⟩))
        (ssSet ssEmpty "k" ⟨.jstr "OLD", 100⟩)
      = .ok (.jstr "OLD", ssSet ssEmpty "k" ⟨.jstr "OLD", 100⟩, 0) ∧
    get_token "k" 150 (fun s₀ => .ok (.jstr "NEW", ssSet s₀ "k" ⟨.jstr "NEW", 900⟩))
        (ssSet ssEmpty "k" ⟨.jstr "OLD", 100⟩)
      = .ok (.jstr "NEW",
          ssSet (ssSet ssEmpty "k" ⟨.jstr "OLD", 100⟩) "k" ⟨.jstr "NEW", 900⟩, 1) :=
  ⟨(get_token_cache_semantics "k" 50 _ _).1 ⟨.jstr "OLD", 100⟩ rfl (by norm_num),
   (get_token_cache_semantics "k" 150 _ _).2 (.jstr "NEW") 900
     (Or.inr ⟨⟨.jstr "OLD", 100⟩, rfl, by norm_num⟩) (fun s₀ => rfl)⟩

theorem ssGet_ssSet_ne (ss : SessionState) (k : String) (v : TokenInfo)
    (k' : String) (h : k' ≠ k) : ssGet (ssSet ss k v) k' = ssGet ss k' := by
  show (if k' = k then some v else ss k') = ss k'
  rw [if_neg h]

theorem save_token_frame (extract : JObj → JVal) (key : String) (d : JObj)
    (e : ℚ) (ss : SessionState) (k' : String) (h : k' ≠ key) :
    ssGet (save_token extract key d e ss).2 k' = ssGet ss k' := by
  unfold save_token
  by_cases ht : truthy (extract d)
  · rw [if_pos ht]
    exact ssGet_ssSet_ne _ _ _ _ h
  · rw [if_neg ht]

theorem KIS_issue_token_frame (key : String) (nowT : ℚ) (d : JObj)
    (ss : SessionState) (t : JVal) (ss' : SessionState) (k' : String)
    (hiss : KIS_issue_token key nowT d ss = .ok (t, ss')) (h : k' ≠ key) :
    ssGet ss' k' = ssGet ss k' := by
  unfold KIS_issue_token at hiss
  cases h1 : objGetE d "expires_in" with
  | error e => rw [h1] at hiss; exact Except.noConfusion hiss
  | ok v =>
      rw [h1] at hiss
      dsimp only at hiss
      cases h2 : pyIntE v with
      | error e => rw [h2] at hiss; exact Except.noConfusion hiss
      | ok ei =>
          rw [h2] at hiss
          dsimp only at hiss
          have h4 : ss' = (save_token KIS_extract_token key d
              (nowT + (ei : ℚ) - TOKEN_BUFFER_SEC) ss).2 :=
            (congrArg Prod.snd (Except.ok.inj hiss)).symm
          rw [h4]
          exact save_token_frame _ _ _ _ _ _ h

theorem Kiwoom_issue_finish_frame (key : String) (d : JObj) (ea : ℚ)
    (ss : SessionState) (t : JVal) (ss' : SessionState) (k' : String)
    (hiss : Kiwoom_issue_finish key d ea ss = .ok (t, ss')) (h : k' ≠ key) :
    ssGet ss' k' = ssGet ss k' := by
  unfold Kiwoom_issue_finish at hiss
  have h4 : ss' = (save_token Kiwoom_extract_token key d ea ss).2 :=
    (congrArg Prod.snd (Except.ok.inj hiss)).symm
  rw [h4]
  exact save_token_frame _ _ _ _ _ _ h

theorem Kiwoom_issue_token_frame (key : String) (nowT : ℚ) (d : JObj)
    (ss : SessionState) (t : JVal) (ss' : SessionState) (k' : String)
    (hiss : Kiwoom_issue_token key nowT d ss = .ok (t, ss')) (h : k' ≠ key) :
    ssGet ss' k' = ssGet ss k' := by
  unfold Kiwoom_issue_token at hiss
  cases h1 : objGet? d "expires_dt" with
  | none =>
      rw [h1] at hiss
      exact Kiwoom_issue_finish_frame _ _ _ _ _ _ _ hiss h
  | some v =>
      rw [h1] at hiss
      cases v with
      | jstr s => exact Kiwoom_issue_finish_frame _ _ _ _ _ _ _ hiss h
      | jnull => exact Except.noConfusion hiss
      | jbool b => exact Except.noConfusion hiss
      | jnum q => exact Except.noConfusion hiss
      | jarr xs => exact Except.noConfusion hiss
      | jobj fs => exact Except.noConfusion hiss

theorem get_token_frame (key : String) (nowT : ℚ)
    (issue : SessionState → Except PyErr (JVal × SessionState))
    (ss : SessionState) (t : JVal) (ss' : SessionState) (n : ℕ)
    (hframe : ∀ s₀ t₀ s₁, issue s₀ = .ok (t₀, s₁) →
      ∀ k', k' ≠ key → ssGet s₁ k' = ssGet s₀ k')
    (hget : get_token key nowT issue ss = .ok (t, ss', n))
    (k' : String) (h : k' ≠ key) : ssGet ss' k' = ssGet ss k' := by
  unfold get_token at hget
  have hissue : ∀ (hmap : (issue ss).map (fun p => (p.1, p.2, 1)) = .ok (t, ss', n)),
      ssGet ss' k' = ssGet ss k' := by
    intro hmap
    cases h5 : issue ss with
    | error e => rw [h5] at hmap; exact Except.noConfusion hmap
    | ok p =>
        rw [h5] at hmap
        have h6 : ss' = p.2 :=
          (congrArg (fun x => x.2.1) (Except.ok.inj hmap)).symm
        rw [h6]
        exact hframe ss p.1 p.2 (by rw [h5]) k' h
  cases h7 : ssGet ss key with
  | none => rw [h7] at hget; exact hissue hget
  | some ti =>
      rw [h7] at hget
      dsimp only at hget
      by_cases h8 : nowT < ti.expires_at
      · rw [if_pos h8] at hget
        have h9 : ss' = ss := (congrArg (fun x => x.2.1) (Except.ok.inj hget)).symm
        rw [h9]
      · rw [if_neg h8] at hget
        exact hissue hget

/-- C10: `_save_token`, `_issue_token` (both brokers) and `get_token` write
only the session entry under the client's own cache key
`"token_" ++ account prefix ++ "_" ++ class name`; every entry under any
other key is unchanged, and the three deployed clients' keys (KIS
individual, KIS corporate, Kiwoom corporate) are pairwise distinct, so
they never overwrite each other's cached tokens. -/
theorem token_cache_frame :
    (∀ (extract : JObj → JVal) (key : String) (d : JObj) (e : ℚ)
        (ss : SessionState) (k' : String), k' ≠ key →
      ssGet (save_token extract key d e ss).2 k' = ssGet ss k') ∧
    (∀ (key : String) (nowT : ℚ) (d : JObj) (ss : SessionState) (t : JVal)
        (ss' : SessionState) (k' : String),
      KIS_issue_token key nowT d ss = .ok (t, ss') → k' ≠ key →
      ssGet ss' k' = ssGet ss k') ∧
    (∀ (key : String) (nowT : ℚ) (d : JObj) (ss : SessionState) (t : JVal)
        (ss' : SessionState) (k' : String),
      Kiwoom_issue_token key nowT d ss = .ok (t, ss') → k' ≠ key →
      ssGet ss' k' = ssGet ss k') ∧
    (∀ (key : String) (nowT : ℚ)
        (issue : SessionState → Except PyErr (JVal × SessionState))
        (ss : SessionState) (t : JVal) (ss' : SessionState) (n : ℕ),
      (∀ s₀ t₀ s₁, issue s₀ = .ok (t₀, s₁) →
        ∀ k', k' ≠ key → ssGet s₁ k' = ssGet s₀ k') →
      get_token key nowT issue ss = .ok (t, ss', n) →
      ∀ k', k' ≠ key → ssGet ss' k' = ssGet ss k') ∧
    (kisTokenKey "P" ≠ kisTokenKey "C" ∧ kisTokenKey "P" ≠ kiwoomTokenKey ∧
      kisTokenKey "C" ≠ kiwoomTokenKey) :=
  ⟨save_token_frame, KIS_issue_token_frame, Kiwoom_issue_token_frame,
   get_token_frame, by decide, by decide, by decide⟩

/-- Witness for C10: saving a KIS token under key `"a"` leaves key `"b"`
untouched, and a `get_token` that issues under `"a"` leaves `"b"`
untouched. -/
theorem token_cache_frame_witness :
    ssGet (save_token KIS_extract_token "a" [("access_token", .jstr "T")] 5 ssEmpty).2 "b"
      = ssGet ssEmpty "b" ∧
    ssGet (ssSet ssEmpty "a" ⟨.jstr "N", 9⟩) "b" = ssGet ssEmpty "b" := by
  constructor
  · exact token_cache_frame.1 KIS_extract_token "a" _ 5 ssEmpty "b" (by decide)
  · exact token_cache_frame.2.2.2.1 "a" 0
      (fun s₀ => .ok (.jstr "N", ssSet s₀ "a" ⟨.jstr "N", 9⟩)) ssEmpty
      (.jstr "N") (ssSet ssEmpty "a" ⟨.jstr "N", 9⟩) 1
      (by
        intro s₀ t₀ s₁ hiss k' hk
        have h6 : ssSet s₀ "a" ⟨.jstr "N", 9⟩ = s₁ :=
          congrArg Prod.snd (Except.ok.inj hiss)
        rw [← h6]
        exact ssGet_ssSet_ne _ _ _ _ hk)
      rfl "b" (by decide)

structure Asset where
  broker : String
  account_type : String
  account_label : String
  market : String
  asset_type : String
  ticker : JVal
  name : JVal
  quantity : ℚ
  avg_buy_price : ℚ
  current_price : ℚ
  eval_amount : ℚ
  profit_loss : ℚ
  profit_rate : ℚ
  currency : JVal

/-- `str(v)` — just enough of Python's rendering for the f-string labels
the normalizers build; numeric/container rendering is schematic (no claim
depends on the text). -/
def pyStr : JVal → String
  | .jnull => "None"
  | .jbool b => if b then "True" else "False"
  | .jnum q => toString q.num
  | .jstr s => s
  | .jarr _ => "<list>"
  | .jobj _ => "<dict>"

/-- The `for`-loop body pattern shared by the stock/cash loops: run the
per-entry function over each element, appending the records it emits. -/
def parseLoop (f : JVal → Except PyErr (Option Asset)) :
    List JVal → Except PyErr (List Asset)
  | [] => .ok []
  | x :: xs =>
      match f x with
      | .error e => .error e
      | .ok a? =>
          match parseLoop f xs with
          | .error e => .error e
          | .ok rest => .ok (a?.toList ++ rest)

/-- The per-entry pattern shared by all four loops of the normalizers:
`.get` the element as a dict, test the guard (`qty > 0` / `amt > 0`),
append one record when it holds. -/
def entryIf (g : JObj → Bool) (mk : JObj → Asset) (v : JVal) :
    Except PyErr (Option Asset) :=
  match asObjE v with
  | .error e => .error e
  | .ok s => if g s then .ok (some (mk s)) else .ok none

/-- The guard of `entryIf` read off the raw entry (false for non-dicts,
whose processing raises instead of emitting). -/
def entryPos (g : JObj → Bool) (v : JVal) : Bool :=
  match v with
  | .jobj s => g s
  | _ => false

/-- KIS account-type display name (`"개인" if account_type == "P" else "법인"`). -/
def kisAcctName (acct : String) : String := if acct = "P" then "개인" else "법인"

/-- KIS account label (hard-coded holder names of the source). -/
def kisAcctLabel (acct : String) : String :=
  if acct = "P" then "조현익(한투)" else "뮤사이(한투)"

/-- Guard of the KIS domestic stock loop: `qty = safe_int(...); qty > 0`. -/
def KIS_dom_guard (s : JObj) : Bool := 0 < safe_int (objGet s "hldg_qty")

/-- One `output1` entry of `KISApi._parse_domestic`'s stock loop. -/
def KIS_dom_entry (acct : String) : JVal → Except PyErr (Option Asset) :=
  entryIf KIS_dom_guard (fun s =>
    { broker := "한국투자증권"
      account_type := kisAcctName acct
      account_label := kisAcctLabel acct
      market := "domestic"
      asset_type := "stock"
      ticker := objGet s "pdno"
      name := objGet s "prdt_name"
      quantity := (safe_int (objGet s "hldg_qty") : ℚ)
      avg_buy_price := safe_float (objGet s "pchs_avg_pric")
      current_price := safe_float (objGet s "prpr")
      eval_amount := (safe_int (objGet s "evlu_amt") : ℚ)
      profit_loss := (safe_int (objGet s "evlu_pfls_amt") : ℚ)
      profit_rate := safe_float (objGet s "evlu_pfls_rt")
      currency := .jstr "KRW" })

/-- The KRW-deposit record of `KISApi._parse_domestic`. -/
def KIS_cash_asset (acct : String) (amt : ℤ) : Asset :=
  { broker := "한국투자증권"
    account_type := kisAcctName acct
    account_label := kisAcctLabel acct
    market := "domestic"
    asset_type := "cash"
    ticker := .jstr "KRW"
    name := .jstr "원화 예수금"
    quantity := 1
    avg_buy_price := (amt : ℚ)
    current_price := (amt : ℚ)
    eval_amount := (amt : ℚ)
    profit_loss := 0
    profit_rate := 0
    currency := .jstr "KRW" }

/-- The `output2` (deposit) block of `KISApi._parse_domestic`. -/
def KIS_dom_cash (acct : String) (output : JObj) : Except PyErr (List Asset) :=
  let o2 := objGet output "output2"
  if truthy o2 then
    match pySub0 o2 with
    | .error e => .error e
    | .ok x =>
        match asObjE x with
        | .error e => .error e
        | .ok c =>
            let amt := safe_int (objGet c "nxdy_excc_amt")
            .ok (if 0 < amt then [KIS_cash_asset acct amt] else [])
  else .ok []

/-- `KISApi._parse_domestic`: stocks from `output.get("output1", [])`, then
the deposit from `output2`, where `output = data.get("output", data)`. -/
def KIS_parse_domestic (acct : String) (data : JObj) : Except PyErr (List Asset) :=
  match asObjE (objGetD data "output" (.jobj data)) with
  | .error e => .error e
  | .ok output =>
      match pyIterE (objGetD output "output1" (.jarr [])) with
      | .error e => .error e
      | .ok items =>
          match parseLoop (KIS_dom_entry acct) items with
          | .error e => .error e
          | .ok stocks =>
              match KIS_dom_cash acct output with
              | .error e => .error e
              | .ok cash => .ok (stocks ++ cash)

/-- Guard of the KIS overseas stock loop (`ccld_qty_smtl1 > 0`). -/
def KIS_ovs_guard (s : JObj) : Bool := 0 < safe_int (objGet s "ccld_qty_smtl1")

/-- One `output1` entry of `KISApi._parse_overseas`'s stock loop. -/
def KIS_ovs_entry (acct : String) : JVal → Except PyErr (Option Asset) :=
  entryIf KIS_ovs_guard (fun s =>
    let currency := pyOr (objGet s "buy_crcy_cd") (.jstr "USD")
    let avg0 := safe_float (objGet s "avg_unpr3")
    let avgP := if avg0 = 0 then safe_float (objGet s "pchs_avg_pric") else avg0
    { broker := "한국투자증권"
      account_type := kisAcctName acct
      account_label := kisAcctLabel acct
      market := "overseas"
      asset_type := "stock"
      ticker := objGet s "pdno"
      name := objGet s "prdt_name"
      quantity := (safe_int (objGet s "ccld_qty_smtl1") : ℚ)
      avg_buy_price := avgP
      current_price := safe_float (objGet s "ovrs_now_pric1")
      eval_amount := safe_float (objGet s "frcr_evlu_amt2")
      profit_loss := safe_float (objGet s "evlu_pfls_amt2")
      profit_rate := safe_float (objGet s "evlu_pfls_rt1")
      currency := currency })

/-- Guard of the KIS overseas cash loop (`frcr_dncl_amt_2 > 0`). -/
def KIS_ovs_cash_guard (c : JObj) : Bool := 0 < safe_float (objGet c "frcr_dncl_amt_2")

/-- One `output2` entry of `KISApi._parse_overseas`'s foreign-cash loop. -/
def KIS_ovs_cash_entry (acct : String) : JVal → Except PyErr (Option Asset) :=
  entryIf KIS_ovs_cash_guard (fun c =>
    let amt := safe_float (objGet c "frcr_dncl_amt_2")
    let ccy := pyOr (objGet c "crcy_cd") (.jstr "USD")
    { broker := "한국투자증권"
      account_type := kisAcctName acct
      account_label := kisAcctLabel acct
      market := "overseas"
      asset_type := "cash"
      ticker := ccy
      name := .jstr (pyStr ccy ++ " 예수금")
      quantity := 1
      avg_buy_price := amt
      current_price := amt
      eval_amount := amt
      profit_loss := 0
      profit_rate := 0
      currency := ccy })

/-- `KISApi._parse_overseas`. -/
def KIS_parse_overseas (acct : String) (data : JObj) : Except PyErr (List Asset) :=
  match pyIterE (objGetD data "output1" (.jarr [])) with
  | .error e => .error e
  | .ok items =>
      match parseLoop (KIS_ovs_entry acct) items with
      | .error e => .error e
      | .ok stocks =>
          match pyIterE (objGetD data "output2" (.jarr [])) with
          | .error e => .error e
          | .ok citems =>
              match parseLoop (KIS_ovs_cash_entry acct) citems with
              | .error e => .error e
              | .ok cash => .ok (stocks ++ cash)

/-- Python `v != 0` for the Kiwoom `return_code` check (note
`False == 0` in Python). -/
def pyNe0 (v : JVal) : Bool :=
  match v with
  | .jnum q => q ≠ 0
  | .jbool b => b
  | _ => true

/-- Guard of the Kiwoom stock loop (`rmnd_qty > 0`). -/
def Kiwoom_guard (s : JObj) : Bool := 0 < safe_int (objGet s "rmnd_qty")

/-- One `day_bal_rt` entry of `KiwoomAPI._parse_domestic`'s stock loop. -/
def Kiwoom_entry : JVal → Except PyErr (Option Asset) :=
  entryIf Kiwoom_guard (fun s =>
    { broker := "키움증권"
      account_type := "법인"
      account_label := "뮤사이(키움)"
      market := "domestic"
      asset_type := "stock"
      ticker := objGet s "stk_cd"
      name := objGetD s "stk_nm" (objGetD s "stk_cd" (.jstr "알 수 없음"))
      quantity := (safe_int (objGet s "rmnd_qty") : ℚ)
      avg_buy_price := safe_float (objGet s "buy_uv")
      current_price := safe_float (objGet s "cur_prc")
      eval_amount := (safe_int (objGet s "evlt_amt") : ℚ)
      profit_loss := (safe_int (objGet s "evltv_prft") : ℚ)
      profit_rate := safe_float (objGet s "prft_rt")
      currency := .jstr "KRW" })

/-- The KRW-deposit (`dbst_bal`) record of `KiwoomAPI._parse_domestic`. -/
def Kiwoom_cash_asset (amt : ℤ) : Asset :=
  { broker := "키움증권"
    account_type := "법인"
    account_label := "뮤사이(키움)"
    market := "domestic"
    asset_type := "cash"
    ticker := .jstr "KRW"
    name := .jstr "원화 예수금"
    quantity := 1
    avg_buy_price := (amt : ℚ)
    current_price := (amt : ℚ)
    eval_amount := (amt : ℚ)
    profit_loss := 0
    profit_rate := 0
    currency := .jstr "KRW" }

/-- `KiwoomAPI._parse_domestic`: empty on `return_code != 0`, otherwise
stocks from `day_bal_rt` plus the `dbst_bal` deposit. -/
def Kiwoom_parse_domestic (data : JObj) : Except PyErr (List Asset) :=
  if pyNe0 (objGet data "return_code") then .ok []
  else
    match pyIterE (objGetD data "day_bal_rt" (.jarr [])) with
    | .error e => .error e
    | .ok items =>
        match parseLoop Kiwoom_entry items with
        | .error e => .error e
        | .ok stocks =>
            let db := safe_int (objGet data "dbst_bal")
            .ok (stocks ++ (if 0 < db then [Kiwoom_cash_asset db] else []))

theorem asObjE_ok (v : JVal) (s : JObj) (h : asObjE v = .ok s) : v = .jobj s := by
  cases v with
  | jobj fs => exact congrArg JVal.jobj (Except.ok.inj h)
  | jnull => exact Except.noConfusion h
  | jbool b => exact Except.noConfusion h
  | jnum q => exact Except.noConfusion h
  | jstr t => exact Except.noConfusion h
  | jarr xs => exact Except.noConfusion h

theorem entryIf_some (g : JObj → Bool) (mk : JObj → Asset) (v : JVal) (a : Asset)
    (h : entryIf g mk v = .ok (some a)) :
    ∃ s, v = .jobj s ∧ g s = true ∧ a = mk s := by
  unfold entryIf at h
  cases hv : asObjE v with
  | error e => rw [hv] at h; exact Except.noConfusion h
  | ok s =>
      rw [hv] at h
      dsimp only at h
      by_cases hg : g s
      · rw [if_pos hg] at h
        exact ⟨s, asObjE_ok v s hv, hg, (Option.some.inj (Except.ok.inj h)).symm⟩
      · rw [if_neg hg] at h
        exact Option.noConfusion (Except.ok.inj h)

theorem entryIf_none (g : JObj → Bool) (mk : JObj → Asset) (v : JVal)
    (h : entryIf g mk v = .ok none) : entryPos g v = false := by
  unfold entryIf at h
  cases hv : asObjE v with
  | error e => rw [hv] at h; exact Except.noConfusion h
  | ok s =>
      rw [hv] at h
      dsimp only at h
      rw [asObjE_ok v s hv]
      by_cases hg : g s
      · rw [if_pos hg] at h
        exact Option.noConfusion (Except.ok.inj h)
      · simpa [entryPos] using hg

theorem parseLoop_mem (f : JVal → Except PyErr (Option Asset)) (P : Asset → Prop)
    (hf : ∀ x a, f x = .ok (some a) → P a) :
    ∀ xs l, parseLoop f xs = .ok l → ∀ a ∈ l, P a := by
  intro xs
  induction xs with
  | nil =>
      intro l hl a ha
      rw [← Except.ok.inj hl] at ha
      exact absurd ha (List.not_mem_nil a)
  | cons x xs ih =>
      intro l hl a ha
      unfold parseLoop at hl
      cases h1 : f x with
      | error e => rw [h1] at hl; exact Except.noConfusion hl
      | ok a? =>
          rw [h1] at hl
          dsimp only at hl
          cases h2 : parseLoop f xs with
          | error e => rw [h2] at hl; exact Except.noConfusion hl
          | ok rest =>
              rw [h2] at hl
              dsimp only at hl
              rw [← Except.ok.inj hl] at ha
              rcases List.mem_append.mp ha with h4 | h4
              · cases a? with
                | none => exact absurd h4 (List.not_mem_nil a)
                | some b =>
                    have h5 : a = b := by simpa using h4
                    rw [h5]
                    exact hf x b h1
              · exact ih rest h2 a h4

theorem parseLoop_count (f : JVal → Except PyErr (Option Asset))
    (p : Asset → Bool) (q : JVal → Bool)
    (h1 : ∀ x a, f x = .ok (some a) → p a = true ∧ q x = true)
    (h2 : ∀ x, f x = .ok none → q x = false) :
    ∀ xs l, parseLoop f xs = .ok l →
      (l.filter p).length = (xs.filter q).length := by
  intro xs
  induction xs with
  | nil =>
      intro l hl
      rw [← Except.ok.inj hl]
      rfl
  | cons x xs ih =>
      intro l hl
      unfold parseLoop at hl
      cases hx : f x with
      | error e => rw [hx] at hl; exact Except.noConfusion hl
      | ok a? =>
          rw [hx] at hl
          dsimp only at hl
          cases hr : parseLoop f xs with
          | error e => rw [hr] at hl; exact Except.noConfusion hl
          | ok rest =>
              rw [hr] at hl
              dsimp only at hl
              rw [← Except.ok.inj hl]
              cases a? with
              | none =>
                  have hq := h2 x hx
                  simp only [Option.toList, List.nil_append, List.filter_cons, hq]
                  exact ih rest hr
              | some b =>
                  obtain ⟨hp, hq⟩ := h1 x b hx
                  simp only [Option.toList, List.singleton_append, List.filter_cons,
                    hp, hq, List.length_cons]
                  exact congrArg Nat.succ (ih rest hr)

/-- The record-shape invariant every normalizer maintains: stock records
have strictly positive quantity, cash records have quantity 1 and a
strictly positive amount. -/
abbrev GoodShape (a : Asset) : Prop :=
  (a.asset_type = "stock" ∧ 0 < a.quantity) ∨
  (a.asset_type = "cash" ∧ a.quantity = 1 ∧ 0 < a.eval_amount ∧ a.profit_loss = 0)

/-- Everything the deposit block of `KISApi._parse_domestic` emits is a
cash record with `quantity = 1` and a positive amount. -/
theorem KIS_dom_cash_mem (acct : String) (output : JObj) (cash : List Asset)
    (h : KIS_dom_cash acct output = .ok cash) :
    ∀ a ∈ cash, a.asset_type = "cash" ∧ a.quantity = 1 ∧ 0 < a.eval_amount ∧
      a.profit_loss = 0 := by
  unfold KIS_dom_cash at h
  by_cases ht : truthy (objGet output "output2")
  · rw [if_pos ht] at h
    cases h1 : pySub0 (objGet output "output2") with
    | error e => rw [h1] at h; exact Except.noConfusion h
    | ok x =>
        rw [h1] at h
        dsimp only at h
        cases h2 : asObjE x with
        | error e => rw [h2] at h; exact Except.noConfusion h
        | ok c =>
            rw [h2] at h
            dsimp only at h
            by_cases h3 : 0 < safe_int (objGet c "nxdy_excc_amt")
            · rw [if_pos h3] at h
              intro a ha
              have h4 : a = KIS_cash_asset acct (safe_int (objGet c "nxdy_excc_amt")) := by
                rw [← Except.ok.inj h] at ha
                simpa using ha
              rw [h4]
              refine ⟨rfl, rfl, ?_, rfl⟩
              show (0 : ℚ) < ((safe_int (objGet c "nxdy_excc_amt") 0 : ℤ) : ℚ)
              exact_mod_cast h3
            · rw [if_neg h3] at h
              intro a ha
              rw [← Except.ok.inj h] at ha
              exact absurd ha (List.not_mem_nil a)
  · rw [if_neg ht] at h
    intro a ha
    rw [← Except.ok.inj h] at ha
    exact absurd ha (List.not_mem_nil a)

/-- Shape of every record the KIS domestic normalizer emits. -/
theorem KIS_parse_domestic_shape (acct : String) (data : JObj) (l : List Asset)
    (hl : KIS_parse_domestic acct data = .ok l) : ∀ a ∈ l, GoodShape a := by
  unfold KIS_parse_domestic at hl
  cases h1 : asObjE (objGetD data "output" (.jobj data)) with
  | error e => rw [h1] at hl; exact Except.noConfusion hl
  | ok output =>
      rw [h1] at hl
      dsimp only at hl
      cases h2 : pyIterE (objGetD output "output1" (.jarr [])) with
      | error e => rw [h2] at hl; exact Except.noConfusion hl
      | ok items =>
          rw [h2] at hl
          dsimp only at hl
          cases h3 : parseLoop (KIS_dom_entry acct) items with
          | error e => rw [h3] at hl; exact Except.noConfusion hl
          | ok stocks =>
              rw [h3] at hl
              dsimp only at hl
              cases h4 : KIS_dom_cash acct output with
              | error e => rw [h4] at hl; exact Except.noConfusion hl
              | ok cash =>
                  rw [h4] at hl
                  dsimp only at hl
                  intro a ha
                  rw [← Except.ok.inj hl] at ha
                  rcases List.mem_append.mp ha with h6 | h6
                  · refine parseLoop_mem _ GoodShape ?_ items stocks h3 a h6
                    intro x b hb
                    obtain ⟨s, _, hg, rfl⟩ := entryIf_some _ _ _ _ hb
                    refine Or.inl ⟨rfl, ?_⟩
                    show (0 : ℚ) < ((safe_int (objGet s "hldg_qty") 0 : ℤ) : ℚ)
                    exact_mod_cast of_decide_eq_true hg
                  · exact Or.inr (KIS_dom_cash_mem acct output cash h4 a h6)

/-- Shape of every record the KIS overseas normalizer emits. -/
theorem KIS_parse_overseas_shape (acct : String) (data : JObj) (l : List Asset)
    (hl : KIS_parse_overseas acct data = .ok l) : ∀ a ∈ l, GoodShape a := by
  unfold KIS_parse_overseas at hl
  cases h1 : pyIterE (objGetD data "output1" (.jarr [])) with
  | error e => rw [h1] at hl; exact Except.noConfusion hl
  | ok items =>
      rw [h1] at hl
      dsimp only at hl
      cases h2 : parseLoop (KIS_ovs_entry acct) items with
      | error e => rw [h2] at hl; exact Except.noConfusion hl
      | ok stocks =>
          rw [h2] at hl
          dsimp only at hl
          cases h3 : pyIterE (objGetD data "output2" (.jarr [])) with
          | error e => rw [h3] at hl; exact Except.noConfusion hl
          | ok citems =>
              rw [h3] at hl
              dsimp only at hl
              cases h4 : parseLoop (KIS_ovs_cash_entry acct) citems with
              | error e => rw [h4] at hl; exact Except.noConfusion hl
              | ok cash =>
                  rw [h4] at hl
                  dsimp only at hl
                  intro a ha
                  rw [← Except.ok.inj hl] at ha
                  rcases List.mem_append.mp ha with h6 | h6
                  · refine parseLoop_mem _ GoodShape ?_ items stocks h2 a h6
                    intro x b hb
                    obtain ⟨s, _, hg, rfl⟩ := entryIf_some _ _ _ _ hb
                    refine Or.inl ⟨rfl, ?_⟩
                    show (0 : ℚ) < ((safe_int (objGet s "ccld_qty_smtl1") 0 : ℤ) : ℚ)
                    exact_mod_cast of_decide_eq_true hg
                  · refine parseLoop_mem _ GoodShape ?_ citems cash h4 a h6
                    intro x b hb
                    obtain ⟨c, _, hg, rfl⟩ := entryIf_some _ _ _ _ hb
                    exact Or.inr ⟨rfl, rfl, of_decide_eq_true hg, rfl⟩

/-- Shape of every record the Kiwoom normalizer emits. -/
theorem Kiwoom_parse_domestic_shape (data : JObj) (l : List Asset)
    (hl : Kiwoom_parse_domestic data = .ok l) : ∀ a ∈ l, GoodShape a := by
  unfold Kiwoom_parse_domestic at hl
  by_cases hrc : pyNe0 (objGet data "return_code") = true
  · rw [if_pos hrc] at hl
    intro a ha
    rw [← Except.ok.inj hl] at ha
    exact absurd ha (List.not_mem_nil a)
  · rw [if_neg hrc] at hl
    cases h1 : pyIterE (objGetD data "day_bal_rt" (.jarr [])) with
    | error e => rw [h1] at hl; exact Except.noConfusion hl
    | ok items =>
        rw [h1] at hl
        dsimp only at hl
        cases h2 : parseLoop Kiwoom_entry items with
        | error e => rw [h2] at hl; exact Except.noConfusion hl
        | ok stocks =>
            rw [h2] at hl
            dsimp only at hl
            intro a ha
            rw [← Except.ok.inj hl] at ha
            rcases List.mem_append.mp ha with h6 | h6
            · refine parseLoop_mem _ GoodShape ?_ items stocks h2 a h6
              intro x b hb
              obtain ⟨s, _, hg, rfl⟩ := entryIf_some _ _ _ _ hb
              refine Or.inl ⟨rfl, ?_⟩
              show (0 : ℚ) < ((safe_int (objGet s "rmnd_qty") 0 : ℤ) : ℚ)
              exact_mod_cast of_decide_eq_true hg
            · by_cases h7 : 0 < safe_int (objGet data "dbst_bal")
              · rw [if_pos h7] at h6
                have h8 : a = Kiwoom_cash_asset (safe_int (objGet data "dbst_bal")) := by
                  simpa using h6
                rw [h8]
                refine Or.inr ⟨rfl, rfl, ?_, rfl⟩
                show (0 : ℚ) < ((safe_int (objGet data "dbst_bal") 0 : ℤ) : ℚ)
                exact_mod_cast h7
              · rw [if_neg h7] at h6
                exact absurd h6 (List.not_mem_nil a)

/-- Stock loops built from `entryIf`: the number of stock records emitted
equals the number of entries whose guard (parsed quantity strictly
positive) holds. -/
theorem entryIf_count (g : JObj → Bool) (mk : JObj → Asset)
    (hmk : ∀ s, ((mk s).asset_type == "stock") = true) :
    ∀ xs l, parseLoop (entryIf g mk) xs = .ok l →
      (l.filter (fun a => a.asset_type == "stock")).length
        = (xs.filter (entryPos g)).length := by
  intro xs l hl
  refine parseLoop_count _ _ _ ?_ ?_ xs l hl
  · intro x a h
    obtain ⟨s, rfl, hg, rfl⟩ := entryIf_some _ _ _ _ h
    exact ⟨hmk s, by simpa [entryPos] using hg⟩
  · intro x h
    exact entryIf_none _ _ _ h

/-- C4: every normalizer emits a stock record only when the parsed quantity
is strictly positive, and the number of stock records equals the number of
holding entries whose quantity field parses positive — so a holding whose
quantity parses to 0 or a negative value yields no stock record. -/
theorem stock_records_need_positive_quantity :
    (∀ acct data l, KIS_parse_domestic acct data = .ok l →
      ∀ a ∈ l, a.asset_type = "stock" → 0 < a.quantity) ∧
    (∀ acct data l, KIS_parse_overseas acct data = .ok l →
      ∀ a ∈ l, a.asset_type = "stock" → 0 < a.quantity) ∧
    (∀ data l, Kiwoom_parse_domestic data = .ok l →
      ∀ a ∈ l, a.asset_type = "stock" → 0 < a.quantity) ∧
    (∀ acct data output items l,
      asObjE (objGetD data "output" (.jobj data)) = .ok output →
      pyIterE (objGetD output "output1" (.jarr [])) = .ok items →
      KIS_parse_domestic acct data = .ok l →
      (l.filter (fun a => a.asset_type == "stock")).length
        = (items.filter (entryPos KIS_dom_guard)).length) ∧
    (∀ acct data items l,
      pyIterE (objGetD data "output1" (.jarr [])) = .ok items →
      KIS_parse_overseas acct data = .ok l →
      (l.filter (fun a => a.asset_type == "stock")).length
        = (items.filter (entryPos KIS_ovs_guard)).length) ∧
    (∀ data items l,
      pyNe0 (objGet data "return_code") = false →
      pyIterE (objGetD data "day_bal_rt" (.jarr [])) = .ok items →
      Kiwoom_parse_domestic data = .ok l →
      (l.filter (fun a => a.asset_type == "stock")).length
        = (items.filter (entryPos Kiwoom_guard)).length) := by
  refine ⟨?_, ?_, ?_, ?_, ?_, ?_⟩
  · intro acct data l hl a ha hstock
    rcases KIS_parse_domestic_shape acct data l hl a ha with ⟨_, hq⟩ | ⟨hcash, _, _, _⟩
    · exact hq
    · exact absurd (hstock.symm.trans hcash) (by decide)
  · intro acct data l hl a ha hstock
    rcases KIS_parse_overseas_shape acct data l hl a ha with ⟨_, hq⟩ | ⟨hcash, _, _, _⟩
    · exact hq
    · exact absurd (hstock.symm.trans hcash) (by decide)
  · intro data l hl a ha hstock
    rcases Kiwoom_parse_domestic_shape data l hl a ha with ⟨_, hq⟩ | ⟨hcash, _, _, _⟩
    · exact hq
    · exact absurd (hstock.symm.trans hcash) (by decide)
  · intro acct data output items l hobj hiter hl
    unfold KIS_parse_domestic at hl
    rw [hobj] at hl
    dsimp only at hl
    rw [hiter] at hl
    dsimp only at hl
    cases h3 : parseLoop (KIS_dom_entry acct) items with
    | error e => rw [h3] at hl; exact Except.noConfusion hl
    | ok stocks =>
        rw [h3] at hl
        dsimp only at hl
        cases h4 : KIS_dom_cash acct output with
        | error e => rw [h4] at hl; exact Except.noConfusion hl
        | ok cash =>
            rw [h4] at hl
            dsimp only at hl
            rw [← Except.ok.inj hl, List.filter_append, List.length_append]
            have hcash0 : cash.filter (fun a => a.asset_type == "stock") = [] := by
              rw [List.filter_eq_nil_iff]
              intro a ha
              have h5 := (KIS_dom_cash_mem acct output cash h4 a ha).1
              simp [h5]
            rw [hcash0]
            simp only [List.length_nil, Nat.add_zero]
            refine entryIf_count _ _ ?_ items stocks h3
            intro s
            rfl
  · intro acct data items l hiter hl
    unfold KIS_parse_overseas at hl
    rw [hiter] at hl
    dsimp only at hl
    cases h2 : parseLoop (KIS_ovs_entry acct) items with
    | error e => rw [h2] at hl; exact Except.noConfusion hl
    | ok stocks =>
        rw [h2] at hl
        dsimp only at hl
        cases h3 : pyIterE (objGetD data "output2" (.jarr [])) with
        | error e => rw [h3] at hl; exact Except.noConfusion hl
        | ok citems =>
            rw [h3] at hl
            dsimp only at hl
            cases h4 : parseLoop (KIS_ovs_cash_entry acct) citems with
            | error e => rw [h4] at hl; exact Except.noConfusion hl
            | ok cash =>
                rw [h4] at hl
                dsimp only at hl
                rw [← Except.ok.inj hl, List.filter_append, List.length_append]
                have hcash0 : cash.filter (fun a => a.asset_type == "stock") = [] := by
                  rw [List.filter_eq_nil_iff]
                  intro a ha
                  have h5 : a.asset_type = "cash" := by
                    refine parseLoop_mem _ (fun b => b.asset_type = "cash") ?_
                      citems cash h4 a ha
                    intro x b hb
                    obtain ⟨c, _, _, rfl⟩ := entryIf_some _ _ _ _ hb
                    rfl
                  simp [h5]
                rw [hcash0]
                simp only [List.length_nil, Nat.add_zero]
                refine entryIf_count _ _ ?_ items stocks h2
                intro s
                rfl
  · intro data items l hrc hiter hl
    unfold Kiwoom_parse_domestic at hl
    rw [if_neg (by simp [hrc])] at hl
    rw [hiter] at hl
    dsimp only at hl
    cases h2 : parseLoop Kiwoom_entry items with
    | error e => rw [h2] at hl; exact Except.noConfusion hl
    | ok stocks =>
        rw [h2] at hl
        dsimp only at hl
        rw [← Except.ok.inj hl, List.filter_append, List.length_append]
        have hcash0 : ((if 0 < safe_int (objGet data "dbst_bal") 0 then
            [Kiwoom_cash_asset (safe_int (objGet data "dbst_bal") 0)] else
            [])).filter (fun a => a.asset_type == "stock") = [] := by
          by_cases h7 : 0 < safe_int (objGet data "dbst_bal") 0
          · rw [if_pos h7]
            rfl
          · rw [if_neg h7]
            rfl
        rw [hcash0]
        simp only [List.length_nil, Nat.add_zero]
        refine entryIf_count _ _ ?_ items stocks h2
        intro s
        rfl

/-- Sample KIS domestic payload: two holdings, quantities "10" and "0". -/
def kisDomSample : JObj :=
  [("output", .jobj
    [("output1", .jarr
      [.jobj [("hldg_qty", .jstr "10")], .jobj [("hldg_qty", .jstr "0")]])])]

def kisDomItems : List JVal :=
  [.jobj [("hldg_qty", .jstr "10")], .jobj [("hldg_qty", .jstr "0")]]

def kisDomOut : JObj := [("output1", .jarr kisDomItems)]

/-- The single record `kisDomSample` normalizes to. -/
def kisDomRec : Asset :=
  { broker := "한국투자증권"
    account_type := "개인"
    account_label := "조현익(한투)"
    market := "domestic"
    asset_type := "stock"
    ticker := .jnull
    name := .jnull
    quantity := 10
    avg_buy_price := 0
    current_price := 0
    eval_amount := 0
    profit_loss := 0
    profit_rate := 0
    currency := .jstr "KRW" }

/-- Witness for C4: on the sample payload the quantity-10 holding yields a
record with positive quantity, and exactly one of the two holdings (the
positive one) becomes a stock record. -/
theorem stock_records_need_positive_quantity_witness :
    (0 : ℚ) < kisDomRec.quantity ∧
    ([kisDomRec].filter (fun a => a.asset_type == "stock")).length
      = (kisDomItems.filter (entryPos KIS_dom_guard)).length := by
  constructor
  · exact stock_records_need_positive_quantity.1 "P" kisDomSample [kisDomRec] rfl
      kisDomRec (by simp) rfl
  · exact stock_records_need_positive_quantity.2.2.2.1 "P" kisDomSample kisDomOut
      kisDomItems [kisDomRec] rfl rfl rfl

/-- C8: every cash record any normalizer emits has `quantity = 1` and a
strictly positive amount — a payload whose parsed cash amount is `≤ 0`
contributes no cash record. -/
theorem cash_records_quantity_one :
    (∀ acct data l, KIS_parse_domestic acct data = .ok l →
      ∀ a ∈ l, a.asset_type = "cash" → a.quantity = 1 ∧ 0 < a.eval_amount) ∧
    (∀ acct data l, KIS_parse_overseas acct data = .ok l →
      ∀ a ∈ l, a.asset_type = "cash" → a.quantity = 1 ∧ 0 < a.eval_amount) ∧
    (∀ data l, Kiwoom_parse_domestic data = .ok l →
      ∀ a ∈ l, a.asset_type = "cash" → a.quantity = 1 ∧ 0 < a.eval_amount) := by
  refine ⟨?_, ?_, ?_⟩
  · intro acct data l hl a ha hcash
    rcases KIS_parse_domestic_shape acct data l hl a ha with ⟨hstock, _⟩ | ⟨_, hq, hev, _⟩
    · exact absurd (hcash.symm.trans hstock) (by decide)
    · exact ⟨hq, hev⟩
  · intro acct data l hl a ha hcash
    rcases KIS_parse_overseas_shape acct data l hl a ha with ⟨hstock, _⟩ | ⟨_, hq, hev, _⟩
    · exact absurd (hcash.symm.trans hstock) (by decide)
    · exact ⟨hq, hev⟩
  · intro data l hl a ha hcash
    rcases Kiwoom_parse_domestic_shape data l hl a ha with ⟨hstock, _⟩ | ⟨_, hq, hev, _⟩
    · exact absurd (hcash.symm.trans hstock) (by decide)
    · exact ⟨hq, hev⟩

/-- Sample Kiwoom payload: success status, no holdings, deposit "5000". -/
def kiwoomSample : JObj := [("return_code", .jnum 0), ("dbst_bal", .jstr "5000")]

/-- Witness for C8: the deposit record parsed from `kiwoomSample` has
quantity 1 and positive amount. -/
theorem cash_records_quantity_one_witness :
    (Kiwoom_cash_asset 5000).quantity = 1 ∧
      (0 : ℚ) < (Kiwoom_cash_asset 5000).eval_amount :=
  cash_records_quantity_one.2.2 kiwoomSample [Kiwoom_cash_asset 5000] rfl
    (Kiwoom_cash_asset 5000) (by simp) rfl

/-! ### HTTP layer and orchestrator (stock.py lines 98–155, 313–335, 427–473)

The outside world is supplied as data: each `requests` call either raises
(network failure) or yields a response with a status code and a body that
is valid JSON or not.  Authentication per account is a flag: `false` means
`get_token`'s issuance raised for that account's credentials. -/

inductive RespBody where
  | malformed
  | json (v : JVal)

structure HttpResp where
  status : ℕ
  body : RespBody

/-- `res.json()`: raises on a malformed body. -/
def jsonE : RespBody → Except PyErr JVal
  | .malformed => .error .jsonError
  | .json v => .ok v

inductive FetchOutcome where
  | netFail
  | resp (r : HttpResp)

/-- `data.get("rt_cd") == "0"`. -/
def isStr0 (v : JVal) : Bool :=
  match v with
  | .jstr s => s = "0"
  | _ => false

/-- `KISApi._request` applied to the endpooint's response: on status 200
decode the JSON and return it when `rt_cd == "0"`; otherwise log and
return `None`.  Non-200 responses are not raised on. -/
def KIS_request (r : HttpResp) : Except PyErr (Option JObj) :=
  if r.status = 200 then
    match jsonE r.body with
    | .error e => .error e
    | .ok v =>
        match asObjE v with
        | .error e => .error e
        | .ok d => if isStr0 (objGet d "rt_cd") then .ok (some d) else .ok none
  else .ok none

/-- `KISApi.get_domestic_balance`: `_request` then
`self._parse_domestic(data) if data else []`. -/
def KIS_get_domestic_balance (acct : String) (auth : Bool) (out : FetchOutcome) :
    Except PyErr (List Asset) :=
  if auth then
    match out with
    | .netFail => .error .connectionError
    | .resp r =>
        match KIS_request r with
        | .error e => .error e
        | .ok (some d) => if d.isEmpty then .ok [] else KIS_parse_domestic acct d
        | .ok none => .ok []
  else .error .authError

/-- `KISApi.get_overseas_balance`: same pattern, overseas endpoint. -/
def KIS_get_overseas_balance (acct : String) (auth : Bool) (out : FetchOutcome) :
    Except PyErr (List Asset) :=
  if auth then
    match out with
    | .netFail => .error .connectionError
    | .resp r =>
        match KIS_request r with
        | .error e => .error e
        | .ok (some d) => if d.isEmpty then .ok [] else KIS_parse_overseas acct d
        | .ok none => .ok []
  else .error .authError

/-- `KiwoomAPI.get_domestic_balance`: `res.raise_for_status()` (raises on
4xx/5xx), `res.json()`, then `_parse_domestic` (the debug dump of the raw
payload to disk is a side effect with no bearing on the result). -/
def Kiwoom_get_domestic_balance (auth : Bool) (out : FetchOutcome) :
    Except PyErr (List Asset) :=
  if auth then
    match out with
    | .netFail => .error .connectionError
    | .resp r =>
        if 400 ≤ r.status then .error .httpError
        else
          match jsonE r.body with
          | .error e => .error e
          | .ok v =>
              match asObjE v with
              | .error e => .error e
              | .ok d => Kiwoom_parse_domestic d
  else .error .authError

structure KISRun where
  auth : Bool
  domestic : FetchOutcome
  overseas : FetchOutcome

structure KiwoomRun where
  auth : Bool
  domestic : FetchOutcome

/-- One run's external world: `none` models a `load_account_config` that
found no credentials for that account (the loop `continue`s). -/
structure RunEnv where
  kisP : Option KISRun
  kisC : Option KISRun
  kiw : Option KiwoomRun

/-- Body of the KIS loop of `collect_all_assets`: both fetches, no
`try`/`except` around them. -/
def runKISAccount (acct : String) (r : KISRun) : Except PyErr (List Asset) :=
  match KIS_get_domestic_balance acct r.auth r.domestic with
  | .error e => .error e
  | .ok d =>
      match KIS_get_overseas_balance acct r.auth r.overseas with
      | .error e => .error e
      | .ok o => .ok (d ++ o)

def collectKISAccount (acct : String) (r? : Option KISRun) :
    Except PyErr (List Asset) :=
  match r? with
  | none => .ok []
  | some r => runKISAccount acct r

/-- The `for prefix in ["P", "C"]` loop of `collect_all_assets`. -/
def collectKIS (env : RunEnv) : Except PyErr (List Asset) :=
  match collectKISAccount "P" env.kisP with
  | .error e => .error e
  | .ok p =>
      match collectKISAccount "C" env.kisC with
      | .error e => .error e
      | .ok c => .ok (p ++ c)

/-- `collect_all_assets`: the KIS loop (unprotected), then the Kiwoom
account wrapped in `try`/`except Exception` that logs and keeps going. -/
def collect_all_assets (env : RunEnv) : Except PyErr (List Asset) :=
  match collectKIS env with
  | .error e => .error e
  | .ok k =>
      let w :=
        match env.kiw with
        | none => []
        | some r =>
            match Kiwoom_get_domestic_balance r.auth r.domestic with
            | .ok l => l
            | .error _ => []
      .ok (k ++ w)

/-- C2 (amended): for the KIS holdings fetches, a non-200 status or a 200
response whose body carries `rt_cd != "0"` yields the empty list without
raising; for Kiwoom, a 200 response with `return_code != 0` yields the
empty list, but a non-success (4xx/5xx) HTTP status raises
(`raise_for_status`) instead of returning the empty list. -/
theorem fetch_failure_returns_empty :
    (∀ acct r, r.status ≠ 200 →
      KIS_get_domestic_balance acct true (.resp r) = .ok [] ∧
      KIS_get_overseas_balance acct true (.resp r) = .ok []) ∧
    (∀ acct r d, r.status = 200 → r.body = .json (.jobj d) →
      isStr0 (objGet d "rt_cd") = false →
      KIS_get_domestic_balance acct true (.resp r) = .ok [] ∧
      KIS_get_overseas_balance acct true (.resp r) = .ok []) ∧
    (∀ r d, r.status = 200 → r.body = .json (.jobj d) →
      pyNe0 (objGet d "return_code") = true →
      Kiwoom_get_domestic_balance true (.resp r) = .ok []) ∧
    (∀ r, 400 ≤ r.status →
      Kiwoom_get_domestic_balance true (.resp r) = .error .httpError) := by
  refine ⟨?_, ?_, ?_, ?_⟩
  · intro acct r hs
    constructor
    · unfold KIS_get_domestic_balance KIS_request
      rw [if_pos rfl]
      dsimp only
      rw [if_neg hs]
    · unfold KIS_get_overseas_balance KIS_request
      rw [if_pos rfl]
      dsimp only
      rw [if_neg hs]
  · intro acct r d hs hb hrt
    have hreq : KIS_request r = .ok none := by
      unfold KIS_request
      rw [if_pos hs, hb]
      dsimp only [jsonE, asObjE]
      rw [hrt]
      rfl
    constructor
    · unfold KIS_get_domestic_balance
      rw [if_pos rfl]
      dsimp only
      rw [hreq]
    · unfold KIS_get_overseas_balance
      rw [if_pos rfl]
      dsimp only
      rw [hreq]
  · intro r d hs hb hrc
    unfold Kiwoom_get_domestic_balance
    rw [if_pos rfl]
    dsimp only
    rw [if_neg (by omega : ¬ 400 ≤ r.status), hb]
    dsimp only [jsonE, asObjE]
    unfold Kiwoom_parse_domestic
    rw [if_pos hrc]
  · intro r hs
    unfold Kiwoom_get_domestic_balance
    rw [if_pos rfl]
    dsimp only
    rw [if_pos hs]

/-- C2 counterexample: a Kiwoom domestic-balance call whose HTTP response
has non-success status 500 raises (`raise_for_status`) rather than logging
and returning the empty list. -/
theorem kiwoom_http_error_raises :
    Kiwoom_get_domestic_balance true (.resp ⟨500, .json (.jobj [])⟩)
      = .error .httpError ∧
    Kiwoom_get_domestic_balance true (.resp ⟨500, .json (.jobj [])⟩)
      ≠ .ok [] :=
  ⟨rfl, fun h => Except.noConfusion h⟩

/-- Witness for C2: a KIS 404 yields `[]`, and a Kiwoom 200 body with
`return_code = 5` yields `[]`. -/
theorem fetch_failure_returns_empty_witness :
    KIS_get_domestic_balance "P" true (.resp ⟨404, .json .jnull⟩) = .ok [] ∧
    Kiwoom_get_domestic_balance true
        (.resp ⟨200, .json (.jobj [("return_code", .jnum 5)])⟩) = .ok [] :=
  ⟨(fetch_failure_returns_empty.1 "P" ⟨404, .json .jnull⟩ (by decide)).1,
   fetch_failure_returns_empty.2.2.1 ⟨200, .json (.jobj [("return_code", .jnum 5)])⟩
     [("return_code", .jnum 5)] rfl rfl (by decide)⟩

/-- C1 (amended): an exception from the Kiwoom account's fetch is caught
and logged and collection continues with the KIS accounts' records; but an
exception from a configured KIS account's client (e.g. its authentication
raising) is not caught and propagates to the caller, aborting the whole
collection. -/
theorem partial_failure_handling :
    (∀ env kw e, env.kiw = some kw →
      Kiwoom_get_domestic_balance kw.auth kw.domestic = .error e →
      collect_all_assets env = collectKIS env) ∧
    (∀ env r, env.kisP = some r → r.auth = false →
      collect_all_assets env = .error .authError) ∧
    (∀ env r p, env.kisC = some r → r.auth = false →
      collectKISAccount "P" env.kisP = .ok p →
      collect_all_assets env = .error .authError) := by
  refine ⟨?_, ?_, ?_⟩
  · intro env kw e hkw herr
    unfold collect_all_assets
    cases hk : collectKIS env with
    | error e' => rfl
    | ok k =>
        rw [hkw]
        dsimp only
        rw [herr]
        dsimp only
        rw [List.append_nil]
  · intro env r hP hauth
    have hrun : runKISAccount "P" r = .error .authError := by
      unfold runKISAccount KIS_get_domestic_balance
      rw [hauth]
      rfl
    unfold collect_all_assets collectKIS collectKISAccount
    rw [hP]
    dsimp only
    rw [hrun]
  · intro env r p hC hauth hP
    have hrun : runKISAccount "C" r = .error .authError := by
      unfold runKISAccount KIS_get_domestic_balance
      rw [hauth]
      rfl
    unfold collect_all_assets collectKIS
    rw [hP]
    dsimp only
    unfold collectKISAccount
    rw [hC]
    dsimp only
    rw [hrun]

/-- A failing KIS-P account (auth raises) next to perfectly healthy KIS-C
and Kiwoom accounts. -/
def envKisPFails : RunEnv :=
  { kisP := some ⟨false, .netFail, .netFail⟩
    kisC := some ⟨true, .resp ⟨200, .json (.jobj [("rt_cd", .jstr "0")])⟩,
                        .resp ⟨200, .json (.jobj [("rt_cd", .jstr "0")])⟩⟩
    kiw := some ⟨true, .resp ⟨200, .json (.jobj [("return_code", .jnum 0)])⟩⟩ }

/-- C1 counterexample: with account KIS-P's client raising and the other
two accounts healthy, `collect_all_assets` propagates the exception
instead of returning the other accounts' records. -/
theorem kis_exception_aborts_collection :
    collect_all_assets envKisPFails = .error .authError ∧
    collect_all_assets envKisPFails ≠ .ok [] :=
  ⟨rfl, fun h => Except.noConfusion h⟩

/-- Witness for C1: a raising Kiwoom fetch is absorbed, and a raising KIS
account aborts. -/
theorem partial_failure_handling_witness :
    collect_all_assets ⟨none, none, some ⟨true, .resp ⟨500, .json .jnull⟩⟩⟩
      = collectKIS ⟨none, none, some ⟨true, .resp ⟨500, .json .jnull⟩⟩⟩ ∧
    collect_all_assets ⟨some ⟨false, .netFail, .netFail⟩, none, none⟩
      = .error .authError :=
  ⟨partial_failure_handling.1 _ ⟨true, .resp ⟨500, .json .jnull⟩⟩ .httpError rfl rfl,
   partial_failure_handling.2.1 _ ⟨false, .netFail, .netFail⟩ rfl rfl⟩

/-- Every configured account present, every one of them failing at the
broker level (KIS: `rt_cd = "1"`; Kiwoom: HTTP 500, caught). -/
def envAllFailed : RunEnv :=
  { kisP := some ⟨true, .resp ⟨200, .json (.jobj [("rt_cd", .jstr "1")])⟩,
                        .resp ⟨200, .json (.jobj [("rt_cd", .jstr "1")])⟩⟩
    kisC := some ⟨true, .resp ⟨200, .json (.jobj [("rt_cd", .jstr "1")])⟩,
                        .resp ⟨200, .json (.jobj [("rt_cd", .jstr "1")])⟩⟩
    kiw := some ⟨true, .resp ⟨500, .json .jnull⟩⟩ }

/-- C9 (amended): `collect_all_assets` returns the plain empty list both
when no account is configured at all and when every configured account's
collection failed; the two conditions produce the identical value and are
not distinguishable by the caller. -/
theorem empty_config_same_as_all_failed :
    (∀ env, env.kisP = none → env.kisC = none → env.kiw = none →
      collect_all_assets env = .ok []) ∧
    collect_all_assets envAllFailed = .ok [] := by
  constructor
  · intro env hP hC hW
    unfold collect_all_assets collectKIS collectKISAccount
    rw [hP, hC, hW]
    rfl
  · rfl

/-- C9 counterexample: the nothing-configured run and the all-accounts-
failed run return the same indistinguishable `.ok []`. -/
theorem nothing_configured_indistinguishable :
    collect_all_assets ⟨none, none, none⟩ = .ok [] ∧
    collect_all_assets envAllFailed = .ok [] ∧
    collect_all_assets ⟨none, none, none⟩ = collect_all_assets envAllFailed :=
  ⟨rfl, rfl, rfl⟩

/-- Witness for C9: the no-configuration clause applied to the empty
environment. -/
theorem empty_config_same_as_all_failed_witness :
    collect_all_assets ⟨none, none, none⟩ = .ok [] :=
  empty_config_same_as_all_failed.1 ⟨none, none, none⟩ rfl rfl rfl

/-! ### Rate conversion (dashboard_app.py, `load_data` lines 160–171)

```python
exchange_rates_to_krw = {s: 1 / r if r != 0 else 0 for s, r in rates.items()}
exchange_rates_to_krw['KRW'] = 1
df['eval_amount_krw'] = ... r['eval_amount'] * exchange_rates_to_krw.get(r['currency'], 1)
df['profit_loss_krw'] = ... r['profit_loss'] * exchange_rates_to_krw.get(r['currency'], 1)
df['principal_krw'] = ... (avg_buy_price * quantity * rate) if stock and avg > 0
                          else (eval_amount_krw - profit_loss_krw)
df.loc[df['asset_type'] == 'cash', 'principal_krw'] = df['eval_amount_krw']
```
-/

structure HomeValues where
  eval_amount_krw : ℚ
  profit_loss_krw : ℚ
  principal_krw : ℚ

/-- The inverted rate table: source rates are KRW-based (`rate = foreign
per KRW`), the dashboard inverts them and pins `KRW` to 1. -/
def invert_rates (rates : List (String × ℚ)) : List (String × ℚ) :=
  ("KRW", 1) ::
    ((rates.map (fun p => (p.1, if p.2 ≠ 0 then 1 / p.2 else 0))).filter
      (fun p => p.1 ≠ "KRW"))

/-- `exchange_rates_to_krw.get(r['currency'], 1)` — string keys; any
non-string currency value misses every key and falls back to 1. -/
def rateGet (tbl : List (String × ℚ)) (c : JVal) : ℚ :=
  match c with
  | .jstr s =>
      match tbl.find? (fun p => p.1 = s) with
      | some p => p.2
      | none => 1
  | _ => 1

/-- The per-row conversion of `load_data`, including the line-171 override
that sets every cash row's principal to its `eval_amount_krw`. -/
def convert_record (tbl : List (String × ℚ)) (r : Asset) : HomeValues :=
  let rate := rateGet tbl r.currency
  let ev := r.eval_amount * rate
  let pl := r.profit_loss * rate
  let pr0 := if r.asset_type = "stock" ∧ 0 < r.avg_buy_price
    then r.avg_buy_price * r.quantity * rate
    else ev - pl
  let pr := if r.asset_type = "cash" then ev else pr0
  ⟨ev, pl, pr⟩

/-- C6 (amended): home-currency conversion computes
`eval_amount_home = eval_amount * rate[currency]` and
`profit_loss_home = profit_loss * rate[currency]`; principal is
`avg_buy_price * quantity * rate[currency]` for stock records with
positive `avg_buy_price` and `eval_amount_home - profit_loss_home` for
other non-cash records, while cash records take
`principal_home = eval_amount_home` — which coincides with
`eval_amount_home - profit_loss_home` whenever the cash record's
`profit_loss` is 0, as holds for every cash record the normalizers emit;
a currency missing from the table is treated as rate 1; and the USD
round-trip example lands within 0.01 of 142857.14. -/
theorem rate_conversion_formulas :
    (∀ tbl r, (convert_record tbl r).eval_amount_krw
        = r.eval_amount * rateGet tbl r.currency) ∧
    (∀ tbl r, (convert_record tbl r).profit_loss_krw
        = r.profit_loss * rateGet tbl r.currency) ∧
    (∀ tbl r, r.asset_type = "stock" → 0 < r.avg_buy_price →
      (convert_record tbl r).principal_krw
        = r.avg_buy_price * r.quantity * rateGet tbl r.currency) ∧
    (∀ tbl r, r.asset_type ≠ "cash" →
      ¬ (r.asset_type = "stock" ∧ 0 < r.avg_buy_price) →
      (convert_record tbl r).principal_krw
        = (convert_record tbl r).eval_amount_krw
          - (convert_record tbl r).profit_loss_krw) ∧
    (∀ tbl r, r.asset_type = "cash" →
      (convert_record tbl r).principal_krw
        = (convert_record tbl r).eval_amount_krw) ∧
    (∀ tbl r, r.asset_type = "cash" → r.profit_loss = 0 →
      (convert_record tbl r).principal_krw
        = (convert_record tbl r).eval_amount_krw
          - (convert_record tbl r).profit_loss_krw) ∧
    (∀ tbl s, List.find? (fun p => p.1 = s) tbl = none →
      rateGet tbl (.jstr s) = 1) ∧
    (∀ acct data l, KIS_parse_domestic acct data = .ok l →
      ∀ a ∈ l, a.asset_type = "cash" → a.profit_loss = 0) ∧
    (∀ acct data l, KIS_parse_overseas acct data = .ok l →
      ∀ a ∈ l, a.asset_type = "cash" → a.profit_loss = 0) ∧
    (∀ data l, Kiwoom_parse_domestic data = .ok l →
      ∀ a ∈ l, a.asset_type = "cash" → a.profit_loss = 0) ∧
    |(100 : ℚ) * rateGet (invert_rates [("USD", (7 : ℚ) / 10000)]) (.jstr "USD")
        - 14285714 / 100| < 1 / 100 := by
  have husd : rateGet (invert_rates [("USD", (7 : ℚ) / 10000)]) (.jstr "USD")
      = 1 / ((7 : ℚ) / 10000) := by
    have h7 : ((7 : ℚ) / 10000 ≠ 0) := by norm_num
    simp [invert_rates, rateGet, List.find?, h7]
  refine ⟨fun tbl r => rfl, fun tbl r => rfl, ?_, ?_, ?_, ?_, ?_, ?_, ?_, ?_, ?_⟩
  · intro tbl r hstock havg
    unfold convert_record
    dsimp only
    rw [if_neg (by rw [hstock]; decide), if_pos ⟨hstock, havg⟩]
  · intro tbl r hnc hnot
    unfold convert_record
    dsimp only
    rw [if_neg hnc, if_neg hnot]
  · intro tbl r hcash
    unfold convert_record
    dsimp only
    rw [if_pos hcash]
  · intro tbl r hcash hpl
    unfold convert_record
    dsimp only
    rw [if_pos hcash, hpl, zero_mul, sub_zero]
  · intro tbl s hfind
    unfold rateGet
    dsimp only
    rw [hfind]
  · intro acct data l hl a ha hcash
    rcases KIS_parse_domestic_shape acct data l hl a ha with ⟨hstock, _⟩ | ⟨_, _, _, hpl⟩
    · exact absurd (hcash.symm.trans hstock) (by decide)
    · exact hpl
  · intro acct data l hl a ha hcash
    rcases KIS_parse_overseas_shape acct data l hl a ha with ⟨hstock, _⟩ | ⟨_, _, _, hpl⟩
    · exact absurd (hcash.symm.trans hstock) (by decide)
    · exact hpl
  · intro data l hl a ha hcash
    rcases Kiwoom_parse_domestic_shape data l hl a ha with ⟨hstock, _⟩ | ⟨_, _, _, hpl⟩
    · exact absurd (hcash.symm.trans hstock) (by decide)
    · exact hpl
  · rw [husd, abs_lt]
    constructor <;> norm_num

/-- A syntactically valid cash record with nonzero `profit_loss` (no
normalizer emits one, but the record shape admits it). -/
def cashPLRec : Asset :=
  { broker := ""
    account_type := ""
    account_label := ""
    market := "domestic"
    asset_type := "cash"
    ticker := .jstr "KRW"
    name := .jnull
    quantity := 1
    avg_buy_price := 0
    current_price := 0
    eval_amount := 100
    profit_loss := 5
    profit_rate := 0
    currency := .jstr "KRW" }

/-- C6 counterexample: on a cash record with `profit_loss = 5` the code's
principal (the line-171 override: `eval_amount_krw`, here 100) differs
from the claimed back-computation `eval_amount_home - profit_loss_home`
(here 95). -/
theorem cash_principal_not_backcomputed :
    (convert_record (invert_rates []) cashPLRec).principal_krw ≠
      cashPLRec.eval_amount * rateGet (invert_rates []) cashPLRec.currency -
        cashPLRec.profit_loss * rateGet (invert_rates []) cashPLRec.currency := by
  have hrate : rateGet (invert_rates []) cashPLRec.currency = 1 := rfl
  have hpr : (convert_record (invert_rates []) cashPLRec).principal_krw
      = (100 : ℚ) * 1 := by
    unfold convert_record
    dsimp only
    rw [if_pos (show cashPLRec.asset_type = "cash" from rfl), hrate]
    rfl
  rw [hpr, hrate]
  show (100 : ℚ) * 1 ≠ cashPLRec.eval_amount * 1 - cashPLRec.profit_loss * 1
  norm_num [cashPLRec]

/-- A USD stock record for exercising the stock-principal formula. -/
def usdStockRec : Asset :=
  { broker := ""
    account_type := ""
    account_label := ""
    market := "overseas"
    asset_type := "stock"
    ticker := .jstr "AAPL"
    name := .jnull
    quantity := 10
    avg_buy_price := 50
    current_price := 60
    eval_amount := 600
    profit_loss := 100
    profit_rate := 0
    currency := .jstr "USD" }

/-- Witness for C6: the stock-principal clause at a concrete USD stock
record and the cash-override clause at `cashPLRec`. -/
theorem rate_conversion_formulas_witness :
    (convert_record (invert_rates [("USD", (7 : ℚ) / 10000)]) usdStockRec).principal_krw
      = usdStockRec.avg_buy_price * usdStockRec.quantity *
          rateGet (invert_rates [("USD", (7 : ℚ) / 10000)]) usdStockRec.currency ∧
    (convert_record (invert_rates []) cashPLRec).principal_krw
      = (convert_record (invert_rates []) cashPLRec).eval_amount_krw :=
  ⟨rate_conversion_formulas.2.2.1 _ usdStockRec rfl (by norm_num [usdStockRec]),
   rate_conversion_formulas.2.2.2.2.1 _ cashPLRec rfl⟩

end Portfolio
